import Mathlib

/-!
# Shallow embedding of the rgb-emu core (src/lib.rs)

A verification development for the rgb-emu Game Boy emulator core.
The Rust source (src/lib.rs) is translated definition by definition:

* machine integers (u8, u16) become `Nat`; a Rust truncating cast
  `as u8` becomes `% 256`, and a checked addition (Rust's `+` / `+=`,
  which panics on overflow under the default dev profile) becomes an
  `Option`-valued operation where `none` models the overflow panic;
* `HashMap<u16, u8>` becomes a map `Nat → Option Nat`;
* a Rust function that can reach a `panic` becomes `Option`-valued,
  with `none` modelling the panic (process abort);
* `eprintln` is not part of the machine state and is dropped.

Definitions mirror the source names (`Rom.get_cart_type`,
`Cpu.set_bc`, `MemBus.access`, ...).
-/

set_option maxHeartbeats 1000000
set_option maxRecDepth 8192

namespace RgbEmu

/-- The cartridge mapper variants, from the `CartType` enum in src/lib.rs. -/
inductive CartType where
  | ROMONLY
  | MBC1
  | MBC1RAM
  | MBC1RAMBATTERY
  | MBC2
  | MBC2BATTERY
  | ROMRAM
  | ROMRAMBATTERY
  | MMM01
  | MMM01RAM
  | MMM01RAMBATTERY
  | MBC3TIMERBATTERY
  | MBC3TIMERRAMBATTERY
  | MBC3
  | MBC3RAM
  | MBC3RAMBATTERY
  | MBC5
  | MBC5RAM
  | MBC5RAMBATTERY
  | MBC5RUMBLE
  | MBC5RUMBLERAM
  | MBC5RUMBLERAMBATTERY
  | MBC6
  | MBC7SENSORRUMBLERAMBATTERY
  | POCKETCAMERA
  | BANDAITAMA5
  | HuC3
  | HuC1RAMBATTERY
  deriving DecidableEq

/-- The `Rom` struct of src/lib.rs.  The `data` field models the
`HashMap<u16, u8>` filled by `Rom::read_rom` (address to byte; `none`
for absent keys); `title` is the extracted title as a list of bytes. -/
structure Rom where
  data : Nat → Option Nat
  title : List Nat
  cart_type : CartType
  rom_size : Nat
  rom_banks : Nat
  ram_size : Nat
  ram_banks : Nat

/-- `Rom::get_cart_type` (src/lib.rs:111).  The source panics on an
unknown cartridge-type byte; the panic is modelled as `none`. -/
def Rom.get_cart_type (byte : Nat) : Option CartType :=
  match byte with
  | 0x00 => some CartType.ROMONLY
  | 0x01 => some CartType.MBC1
  | 0x02 => some CartType.MBC1RAM
  | 0x03 => some CartType.MBC1RAMBATTERY
  | 0x05 => some CartType.MBC2
  | 0x06 => some CartType.MBC2BATTERY
  | 0x08 => some CartType.ROMRAM
  | 0x09 => some CartType.ROMRAMBATTERY
  | 0x0B => some CartType.MMM01
  | 0x0C => some CartType.MMM01RAM
  | 0x0D => some CartType.MMM01RAMBATTERY
  | 0x0F => some CartType.MBC3TIMERBATTERY
  | 0x10 => some CartType.MBC3TIMERRAMBATTERY
  | 0x11 => some CartType.MBC3
  | 0x12 => some CartType.MBC3RAM
  | 0x13 => some CartType.MBC3RAMBATTERY
  | 0x19 => some CartType.MBC5
  | 0x1A => some CartType.MBC5RAM
  | 0x1B => some CartType.MBC5RAMBATTERY
  | 0x1C => some CartType.MBC5RUMBLE
  | 0x1D => some CartType.MBC5RUMBLERAM
  | 0x1E => some CartType.MBC5RUMBLERAMBATTERY
  | 0x20 => some CartType.MBC6
  | 0x22 => some CartType.MBC7SENSORRUMBLERAMBATTERY
  | 0xFC => some CartType.POCKETCAMERA
  | 0xFD => some CartType.BANDAITAMA5
  | 0xFE => some CartType.HuC3
  | 0xFF => some CartType.HuC1RAMBATTERY
  | _ => none

/-- `Rom::get_rom_size_banks` (src/lib.rs:145): rom-size header byte to
(total byte size, bank count); the panic on an unknown code is `none`. -/
def Rom.get_rom_size_banks (byte : Nat) : Option (Nat × Nat) :=
  match byte with
  | 0x00 => some (32768, 2)
  | 0x01 => some (65536, 4)
  | 0x02 => some (131072, 8)
  | 0x03 => some (262144, 16)
  | 0x04 => some (524288, 32)
  | 0x05 => some (1048576, 64)
  | 0x06 => some (2097152, 128)
  | 0x07 => some (4194304, 256)
  | 0x08 => some (8388608, 512)
  | _ => none

/-- `Rom::get_ram_size_banks` (src/lib.rs:160): ram-size header byte to
(total byte size, bank count); the panic on an unknown code is `none`. -/
def Rom.get_ram_size_banks (byte : Nat) : Option (Nat × Nat) :=
  match byte with
  | 0x00 => some (0, 0)
  | 0x02 => some (8192, 1)
  | 0x03 => some (32768, 4)
  | 0x04 => some (131072, 16)
  | 0x05 => some (65536, 8)
  | _ => none

/-- The title-extraction loop of `Rom::new` (src/lib.rs:51-63): for
each address in 0x0134..0x0143 (exclusive upper bound, 15 addresses),
an absent byte is skipped (`None => continue`) and a present byte is
pushed exactly when it is not 0x00. -/
def Rom.title_of (data : Nat → Option Nat) : List Nat :=
  (List.range' 0x0134 15).filterMap (fun i =>
    match data i with
    | some byte => if byte ≠ 0x00 then some byte else none
    | none => none)

/-- `Rom::new` (src/lib.rs:49), modelled on the already-read byte map
(the file reading of `Rom::read_rom` is I/O and outside the machine
model).  Header bytes absent from the map default to 0x00, as in the
source; a panic in any of the three header-table lookups is `none`. -/
def Rom.new (data : Nat → Option Nat) : Option Rom :=
  let title := Rom.title_of data
  match Rom.get_cart_type ((data 0x0147).getD 0x00) with
  | none => none
  | some cart_type =>
    match Rom.get_rom_size_banks ((data 0x0148).getD 0x00) with
    | none => none
    | some (rom_size, rom_banks) =>
      match Rom.get_ram_size_banks ((data 0x0149).getD 0) with
      | none => none
      | some (ram_size, ram_banks) =>
        some { data := data, title := title, cart_type := cart_type,
               rom_size := rom_size, rom_banks := rom_banks,
               ram_size := ram_size, ram_banks := ram_banks }

/-- `Rom::get_value` (src/lib.rs:175): absent addresses read as 0x00. -/
def Rom.get_value (rom : Rom) (addr : Nat) : Nat :=
  (rom.data addr).getD 0x00

/-- The `Wram` struct (src/lib.rs:619): a `HashMap<u16, u8>`. -/
structure Wram where
  data : Nat → Option Nat

/-- `Wram::new` (src/lib.rs:623): the empty map. -/
def Wram.new : Wram := ⟨fun _ => none⟩

/-- `Wram::set_value` (src/lib.rs:628): insert into the map. -/
def Wram.set_value (w : Wram) (addr entry : Nat) : Wram :=
  ⟨fun a => if a = addr then some entry else w.data a⟩

/-- `Wram::get_value` (src/lib.rs:631): absent addresses read as 0x00. -/
def Wram.get_value (w : Wram) (addr : Nat) : Nat :=
  (w.data addr).getD 0x00

/-- The `Vram` struct (src/lib.rs:638): a `HashMap<u16, u8>`. -/
structure Vram where
  data : Nat → Option Nat

/-- `Vram::new` (src/lib.rs:642): the empty map. -/
def Vram.new : Vram := ⟨fun _ => none⟩

/-- `Vram::set_value` (src/lib.rs:647): insert into the map. -/
def Vram.set_value (v : Vram) (addr entry : Nat) : Vram :=
  ⟨fun a => if a = addr then some entry else v.data a⟩

/-- `Vram::get_value` (src/lib.rs:650): absent addresses read as 0x00. -/
def Vram.get_value (v : Vram) (addr : Nat) : Nat :=
  (v.data addr).getD 0x00

/-- The `MemBus` struct (src/lib.rs:658). -/
structure MemBus where
  rom : Rom
  wram : Wram
  vram : Vram

/-- `MemBus::new` (src/lib.rs:665). -/
def MemBus.new (rom : Rom) : MemBus :=
  { rom := rom, wram := Wram.new, vram := Vram.new }

/-- `MemBus::access` (src/lib.rs:673): the read-side range dispatch.
The Rust match on inclusive u16 ranges becomes the same chain of
interval tests; the final branch is the 0xFFFF arm.  Note the source
hardwires the echo range 0xE000-0xFDFF, OAM, the 0xA000 external-RAM
range, I/O, high RAM and the interrupt register to constant reads. -/
def MemBus.access (m : MemBus) (addr : Nat) : Nat :=
  if addr ≤ 0x3FFF then m.rom.get_value addr
  else if addr ≤ 0x7FFF then m.rom.get_value addr
  else if addr ≤ 0x9FFF then m.vram.get_value addr
  else if addr ≤ 0xBFFF then 0x00
  else if addr ≤ 0xCFFF then m.wram.get_value addr
  else if addr ≤ 0xDFFF then m.wram.get_value addr
  else if addr ≤ 0xFDFF then 0x00
  else if addr ≤ 0xFE9F then 0x00
  else if addr ≤ 0xFEFF then 0xFF
  else if addr ≤ 0xFF7F then 0x00
  else if addr ≤ 0xFFFE then 0x00
  else 0x00

/-- `MemBus::write` (src/lib.rs:690): the write-side range dispatch.
Arms whose source body is only an `eprintln` or `()` leave the bus
unchanged; only the VRAM and the two WRAM arms store the byte. -/
def MemBus.write (m : MemBus) (addr entry : Nat) : MemBus :=
  if addr ≤ 0x3FFF then m
  else if addr ≤ 0x7FFF then m
  else if addr ≤ 0x9FFF then { m with vram := m.vram.set_value addr entry }
  else if addr ≤ 0xBFFF then m
  else if addr ≤ 0xCFFF then { m with wram := m.wram.set_value addr entry }
  else if addr ≤ 0xDFFF then { m with wram := m.wram.set_value addr entry }
  else if addr ≤ 0xFDFF then m
  else if addr ≤ 0xFE9F then m
  else if addr ≤ 0xFEFF then m
  else m

/-- The `Register` enum (src/lib.rs:208). -/
inductive Register where
  | A
  | B
  | C
  | D
  | E
  | F
  | H
  | L
  | SP
  | PC
  | AF
  | BC
  | DE
  | HL
  deriving DecidableEq

/-- The `Cpu` struct (src/lib.rs:194): eight 8-bit registers, SP, PC
and the owned memory bus.  Register fields hold byte values (< 256)
and SP/PC 16-bit values in any state reachable from `Cpu.new`. -/
structure Cpu where
  a : Nat
  b : Nat
  c : Nat
  d : Nat
  e : Nat
  f : Nat
  h : Nat
  l : Nat
  sp : Nat
  pc : Nat
  membus : MemBus

/-- `Cpu::new` (src/lib.rs:226): registers zeroed, SP = 0xFFFE,
PC = 0x0100. -/
def Cpu.new (membus : MemBus) : Cpu :=
  { a := 0x00, b := 0x00, c := 0x00, d := 0x00, e := 0x00, f := 0x00,
    h := 0x00, l := 0x00, sp := 0xFFFE, pc := 0x0100, membus := membus }

/-- `Cpu::get_af` (src/lib.rs:242): A<<8 | F. -/
def Cpu.get_af (cpu : Cpu) : Nat := (cpu.a <<< 8) ||| cpu.f

/-- `Cpu::get_bc` (src/lib.rs:246): B<<8 | C. -/
def Cpu.get_bc (cpu : Cpu) : Nat := (cpu.b <<< 8) ||| cpu.c

/-- `Cpu::get_de` (src/lib.rs:250): D<<8 | E. -/
def Cpu.get_de (cpu : Cpu) : Nat := (cpu.d <<< 8) ||| cpu.e

/-- `Cpu::get_hl` (src/lib.rs:254): H<<8 | L. -/
def Cpu.get_hl (cpu : Cpu) : Nat := (cpu.h <<< 8) ||| cpu.l

/-- `Cpu::set_af` (src/lib.rs:258): A = (value >> 8) as u8,
F = (value & 0x0F) as u8 — the source masks with 0x0F, keeping only
the low nibble. -/
def Cpu.set_af (cpu : Cpu) (value : Nat) : Cpu :=
  { cpu with a := (value >>> 8) % 256, f := (value &&& 0x0F) % 256 }

/-- `Cpu::set_bc` (src/lib.rs:263): B = (value >> 8) as u8,
C = (value & 0x0F) as u8 — note the 0x0F mask in the source, which
keeps only the low nibble of the low byte. -/
def Cpu.set_bc (cpu : Cpu) (value : Nat) : Cpu :=
  { cpu with b := (value >>> 8) % 256, c := (value &&& 0x0F) % 256 }

/-- `Cpu::set_de` (src/lib.rs:267): same shape as `set_bc`. -/
def Cpu.set_de (cpu : Cpu) (value : Nat) : Cpu :=
  { cpu with d := (value >>> 8) % 256, e := (value &&& 0x0F) % 256 }

/-- `Cpu::set_hl` (src/lib.rs:271): same shape as `set_bc`. -/
def Cpu.set_hl (cpu : Cpu) (value : Nat) : Cpu :=
  { cpu with h := (value >>> 8) % 256, l := (value &&& 0x0F) % 256 }

/-- `Cpu::get_16b_value` (src/lib.rs:276):
(mem[PC] as u16) << 8 | (mem[PC+1] as u16).  The byte at PC becomes
the HIGH byte.  `self.pc + 1` is a checked u16 addition: `none`
models the overflow panic when PC = 0xFFFF. -/
def Cpu.get_16b_value (cpu : Cpu) : Option Nat :=
  if cpu.pc + 1 ≤ 0xFFFF then
    some (((cpu.membus.access cpu.pc) <<< 8) ||| (cpu.membus.access (cpu.pc + 1)))
  else none

/-- `Cpu::inc_pc` (src/lib.rs:280): `self.pc += 1`, a checked u16
addition; `none` models the overflow panic at PC = 0xFFFF. -/
def Cpu.inc_pc (cpu : Cpu) : Option Cpu :=
  if cpu.pc + 1 ≤ 0xFFFF then some { cpu with pc := cpu.pc + 1 }
  else none

/-- `Cpu::not_implemented` (src/lib.rs:284): only an `eprintln` of the
current PC; the machine state is untouched and nothing fails. -/
def Cpu.not_implemented (cpu : Cpu) : Option Cpu := some cpu

/-- `Cpu::nop` (src/lib.rs:289). -/
def Cpu.nop (cpu : Cpu) : Option Cpu := cpu.inc_pc

/-- `Cpu::load_r8r8` (src/lib.rs:292): read the source register (an
invalid register logs and reads 0x00), write the destination register
(an invalid register logs and writes nothing), increment PC. -/
def Cpu.load_r8r8 (cpu : Cpu) (source dest : Register) : Option Cpu :=
  let value : Nat :=
    match source with
    | Register.A => cpu.a
    | Register.B => cpu.b
    | Register.C => cpu.c
    | Register.D => cpu.d
    | Register.E => cpu.e
    | Register.F => cpu.f
    | Register.H => cpu.h
    | Register.L => cpu.l
    | _ => 0x00
  let cpu :=
    match dest with
    | Register.A => { cpu with a := value }
    | Register.B => { cpu with b := value }
    | Register.C => { cpu with c := value }
    | Register.D => { cpu with d := value }
    | Register.E => { cpu with e := value }
    | Register.F => { cpu with f := value }
    | Register.H => { cpu with h := value }
    | Register.L => { cpu with l := value }
    | _ => cpu
  cpu.inc_pc

/-- `Cpu::load_r8n8` (src/lib.rs:320): increment PC, load the byte at
the new PC into the destination register, increment PC again. -/
def Cpu.load_r8n8 (cpu : Cpu) (dest : Register) : Option Cpu := do
  let cpu ← cpu.inc_pc
  let cpu :=
    match dest with
    | Register.A => { cpu with a := cpu.membus.access cpu.pc }
    | Register.B => { cpu with b := cpu.membus.access cpu.pc }
    | Register.C => { cpu with c := cpu.membus.access cpu.pc }
    | Register.D => { cpu with d := cpu.membus.access cpu.pc }
    | Register.E => { cpu with e := cpu.membus.access cpu.pc }
    | Register.F => { cpu with f := cpu.membus.access cpu.pc }
    | Register.H => { cpu with h := cpu.membus.access cpu.pc }
    | Register.L => { cpu with l := cpu.membus.access cpu.pc }
    | _ => cpu
  cpu.inc_pc

/-- `Cpu::load_r16n16` (src/lib.rs:335): increment PC, read the 16-bit
value via `get_16b_value` into the destination pair (or SP/PC), then
increment PC twice. -/
def Cpu.load_r16n16 (cpu : Cpu) (dest : Register) : Option Cpu := do
  let cpu ←
    match cpu.inc_pc with
    | none => none
    | some cpu =>
      match dest with
      | Register.AF => (cpu.get_16b_value).map cpu.set_af
      | Register.BC => (cpu.get_16b_value).map cpu.set_bc
      | Register.DE => (cpu.get_16b_value).map cpu.set_de
      | Register.HL => (cpu.get_16b_value).map cpu.set_hl
      | Register.PC => (cpu.get_16b_value).map (fun v => { cpu with pc := v })
      | Register.SP => (cpu.get_16b_value).map (fun v => { cpu with sp := v })
      | _ => some cpu
  let cpu ← cpu.inc_pc
  cpu.inc_pc

/-- `Cpu::exec` (src/lib.rs:350): fetch the byte at PC and dispatch on
it.  Every arm of the source's 256-arm match that does something is
written out below; all remaining arms of the source are the identical
call `self.not_implemented()` and are merged into the final
catch-all (which, on a byte value, is reached exactly for them). -/
def Cpu.exec (cpu : Cpu) : Option Cpu :=
  match cpu.membus.access cpu.pc with
  | 0x00 => cpu.nop
  | 0x01 => cpu.load_r16n16 Register.BC
  | 0x06 => cpu.load_r8n8 Register.B
  | 0x0E => cpu.load_r8n8 Register.C
  | 0x16 => cpu.load_r8n8 Register.D
  | 0x1E => cpu.load_r8n8 Register.E
  | 0x26 => cpu.load_r8n8 Register.H
  | 0x2E => cpu.load_r8n8 Register.L
  | 0x3E => cpu.load_r8n8 Register.A
  | 0x40 => cpu.load_r8r8 Register.B Register.B
  | 0x41 => cpu.load_r8r8 Register.C Register.B
  | 0x42 => cpu.load_r8r8 Register.D Register.B
  | 0x43 => cpu.load_r8r8 Register.E Register.B
  | 0x44 => cpu.load_r8r8 Register.B Register.H
  | 0x45 => cpu.load_r8r8 Register.B Register.L
  | 0x47 => cpu.load_r8r8 Register.B Register.A
  | 0x48 => cpu.load_r8r8 Register.C Register.B
  | 0x49 => cpu.load_r8r8 Register.C Register.C
  | 0x4A => cpu.load_r8r8 Register.C Register.D
  | 0x4B => cpu.load_r8r8 Register.C Register.E
  | 0x4C => cpu.load_r8r8 Register.C Register.H
  | 0x4D => cpu.load_r8r8 Register.C Register.L
  | 0x4F => cpu.load_r8r8 Register.C Register.A
  | 0x50 => cpu.load_r8r8 Register.D Register.B
  | 0x51 => cpu.load_r8r8 Register.D Register.C
  | 0x52 => cpu.load_r8r8 Register.D Register.D
  | 0x53 => cpu.load_r8r8 Register.D Register.E
  | 0x54 => cpu.load_r8r8 Register.D Register.H
  | 0x55 => cpu.load_r8r8 Register.D Register.L
  | 0x57 => cpu.load_r8r8 Register.D Register.A
  | 0x58 => cpu.load_r8r8 Register.E Register.B
  | 0x59 => cpu.load_r8r8 Register.E Register.C
  | 0x5A => cpu.load_r8r8 Register.E Register.D
  | 0x5B => cpu.load_r8r8 Register.E Register.E
  | 0x5C => cpu.load_r8r8 Register.E Register.H
  | 0x5D => cpu.load_r8r8 Register.E Register.L
  | 0x5F => cpu.load_r8r8 Register.E Register.A
  | 0x60 => cpu.load_r8r8 Register.H Register.B
  | 0x61 => cpu.load_r8r8 Register.H Register.C
  | 0x62 => cpu.load_r8r8 Register.H Register.D
  | 0x63 => cpu.load_r8r8 Register.H Register.E
  | 0x64 => cpu.load_r8r8 Register.H Register.H
  | 0x65 => cpu.load_r8r8 Register.H Register.L
  | 0x67 => cpu.load_r8r8 Register.H Register.A
  | 0x68 => cpu.load_r8r8 Register.L Register.B
  | 0x69 => cpu.load_r8r8 Register.L Register.C
  | 0x6A => cpu.load_r8r8 Register.L Register.D
  | 0x6B => cpu.load_r8r8 Register.L Register.E
  | 0x6C => cpu.load_r8r8 Register.L Register.H
  | 0x6D => cpu.load_r8r8 Register.L Register.L
  | 0x6F => cpu.load_r8r8 Register.L Register.A
  | 0x78 => cpu.load_r8r8 Register.A Register.B
  | 0x79 => cpu.load_r8r8 Register.A Register.C
  | 0x7A => cpu.load_r8r8 Register.A Register.D
  | 0x7B => cpu.load_r8r8 Register.A Register.E
  | 0x7C => cpu.load_r8r8 Register.A Register.H
  | 0x7D => cpu.load_r8r8 Register.A Register.L
  | 0x7F => cpu.load_r8r8 Register.A Register.A
  | _ => cpu.not_implemented

/-- The opcode bytes whose `Cpu::exec` arm is something other than
`self.not_implemented()` (read off the dispatch in src/lib.rs:350). -/
def implemented_opcodes : List Nat :=
  [0x00, 0x01, 0x06, 0x0E, 0x16, 0x1E, 0x26, 0x2E, 0x3E,
   0x40, 0x41, 0x42, 0x43, 0x44, 0x45, 0x47,
   0x48, 0x49, 0x4A, 0x4B, 0x4C, 0x4D, 0x4F,
   0x50, 0x51, 0x52, 0x53, 0x54, 0x55, 0x57,
   0x58, 0x59, 0x5A, 0x5B, 0x5C, 0x5D, 0x5F,
   0x60, 0x61, 0x62, 0x63, 0x64, 0x65, 0x67,
   0x68, 0x69, 0x6A, 0x6B, 0x6C, 0x6D, 0x6F,
   0x78, 0x79, 0x7A, 0x7B, 0x7C, 0x7D, 0x7F]

/-- Whether an opcode byte has a real handler in `Cpu::exec`. -/
def implemented (op : Nat) : Bool := implemented_opcodes.contains op

/-!
## Concrete machine states used to evaluate the embedding
-/

/-- An all-header-defaults cartridge: no bytes present, so the mapper
byte defaults to 0x00 (ROM-only) and the size bytes to 0x00, exactly
the `Rom` that `Rom.new` builds from the empty map. -/
def rom0 : Rom :=
  { data := fun _ => none, title := [], cart_type := CartType.ROMONLY,
    rom_size := 32768, rom_banks := 2, ram_size := 0, ram_banks := 0 }

/-- A fresh bus over the ROM-only cartridge. -/
def membus0 : MemBus := MemBus.new rom0

/-- A fresh CPU (PC = 0x0100, SP = 0xFFFE, registers zero). -/
def cpu0 : Cpu := Cpu.new membus0

/-- The same CPU with PC forced to 0xFFFF. -/
def cpuFFFF : Cpu := { cpu0 with pc := 0xFFFF }

/-- Image bytes 0x01 0x34 0x12 at the reset PC 0x0100. -/
def data134 : Nat → Option Nat := fun a =>
  if a = 0x0100 then some 0x01
  else if a = 0x0101 then some 0x34
  else if a = 0x0102 then some 0x12
  else none

/-- CPU about to execute opcode 0x01 with immediate bytes 0x34 0x12. -/
def cpu134 : Cpu := Cpu.new (MemBus.new { rom0 with data := data134 })

/-- Image with the unimplemented opcode 0x02 at the reset PC. -/
def data02 : Nat → Option Nat := fun a =>
  if a = 0x0100 then some 0x02 else none

/-- CPU about to execute the unimplemented opcode 0x02. -/
def cpu02 : Cpu := Cpu.new (MemBus.new { rom0 with data := data02 })

/-- Image with the unimplemented opcode 0x80 at the reset PC. -/
def data80 : Nat → Option Nat := fun a =>
  if a = 0x0100 then some 0x80 else none

/-- CPU about to execute the unimplemented opcode 0x80. -/
def cpu80 : Cpu := Cpu.new (MemBus.new { rom0 with data := data80 })

/-- Image whose mapper-type byte (offset 0x0147) is the unknown code
0xEE. -/
def dataEE : Nat → Option Nat := fun a =>
  if a = 0x0147 then some 0xEE else none

/-- Image whose title field holds the byte 0x41, then a null, then
0x42. -/
def dataT : Nat → Option Nat := fun a =>
  if a = 0x0134 then some 0x41
  else if a = 0x0135 then some 0x00
  else if a = 0x0136 then some 0x42
  else none

/-- The spec's reading of title extraction: the title-field bytes
strictly before the first null byte (absent bytes read as 0x00, as
everywhere else in the image). -/
def title_pre_null (data : Nat → Option Nat) : List Nat :=
  ((List.range' 0x0134 15).map (fun i => (data i).getD 0x00)).takeWhile
    (fun b => decide (b ≠ 0x00))

/-!
## Theorems settling the claims
-/

/-- Claim C1.  The register-pair round trip fails in the code:
`set_bc` stores C = value & 0x0F (src/lib.rs:265 masks with 0x0F, not
0xFF), so after `set_bc(0x1234)` the pair reads back as 0x1204 with
C = 0x04; the spec says the round trip returns 0x1234.  The same mask
appears in `set_de`, `set_hl` and `set_af`. -/
theorem set_bc_get_bc_mask_bug :
    ((cpu0.set_bc 0x1234).get_bc = 0x1204 ∧ (cpu0.set_bc 0x1234).c = 0x04) ∧
    (cpu0.set_de 0x1234).get_de = 0x1204 ∧ (cpu0.set_hl 0x1234).get_hl = 0x1204 := by
  refine ⟨⟨?_, ?_⟩, ?_, ?_⟩ <;> decide

/-- Claim C2.  Executing opcode 0x01 on memory bytes 0x01 0x34 0x12 at
PC = 0x0100 does advance PC by 3 (to 0x0103), but leaves BC = 0x3402,
not 0x1234: `get_16b_value` (src/lib.rs:277) forms mem(pc) << 8 |
mem(pc+1), reading the immediate high-byte-first, and `set_bc` then
masks the low byte with 0x0F. -/
theorem exec_ld_bc_imm16_bug :
    cpu134.exec.map (fun s => (s.get_bc, s.b, s.c, s.pc))
      = some (0x3402, 0x34, 0x02, 0x0103) := by
  decide

/-- Claim C3.  The echo region does not mirror working memory in the
code: after `write(0xC010, 0x42)` a read of 0xE010 returns 0x00 (the
0xE000-0xFDFF read arm is hardwired to 0x00, src/lib.rs:681), and a
write to 0xE010 lands nowhere (the write arm only logs,
src/lib.rs:698); the spec says the read returns 0x42 and echo writes
land in working memory. -/
theorem echo_not_mirrored :
    (membus0.write 0xC010 0x42).access 0xE010 = 0x00 ∧
    (membus0.write 0xE010 0x42).access 0xE010 = 0x00 ∧
    (membus0.write 0xE010 0x42).access 0xC010 = 0x00 := by
  refine ⟨?_, ?_, ?_⟩ <;> decide

/-- Claim C4.  An unknown mapper byte does not produce a typed error:
`Rom::get_cart_type` panics (src/lib.rs:141), aborting the process —
modelled as `none` — so loading an image whose byte at 0x0147 is 0xEE
dies in the panic instead of returning
LoadError.UnsupportedCartridgeType 0xEE (no such error type exists in
the code). -/
theorem unknown_mapper_panics :
    Rom.get_cart_type 0xEE = none ∧ Rom.new dataEE = none := by
  exact ⟨rfl, rfl⟩

/-- Claim C5.  `Cpu::exec` (the code's only step entry point) returns
unit in the source: it yields no cycle count for any instruction and
no ExecutionError for an opcode absent from the table — the 0x80 arm
calls `not_implemented`, which only logs to stderr and leaves the
whole machine state unchanged, as this evaluation shows. -/
theorem exec_unimplemented_no_error : cpu80.exec = some cpu80 := rfl

/-- Claim C6.  `Cpu::inc_pc` is `self.pc += 1` (src/lib.rs:281), a
checked u16 addition: at PC = 0xFFFF it panics with an arithmetic
overflow (under Rust's default dev-profile semantics) — modelled as
`none` — instead of wrapping to 0x0000 as the spec requires. -/
theorem inc_pc_overflow_panics : cpuFFFF.inc_pc = none := rfl

/-- Helper for claim C7: pushing exactly the non-null looked-up bytes
is the same as looking all bytes up and then filtering out the nulls. -/
theorem filterMap_title_eq (data : Nat → Option Nat) (l : List Nat) :
    (l.filterMap (fun i =>
      match data i with
      | some byte => if byte ≠ 0x00 then some byte else none
      | none => none))
    = (l.filterMap data).filter (fun b => decide (b ≠ 0x00)) := by
  induction l with
  | nil => rfl
  | cons x xs ih =>
    cases hx : data x with
    | none => simpa [List.filterMap_cons, hx] using ih
    | some b =>
      by_cases hb : b = 0x00 <;>
        simpa [List.filterMap_cons, List.filter_cons, hx, hb] using ih

/-- Claim C7, counterexample.  Title extraction does not stop at the
first null byte: on an image whose title field holds 0x41, 0x00, 0x42
the code produces the bytes 0x41 0x42 (the null is skipped and later
bytes are kept), while the claim predicts the field bytes strictly
before the first null, i.e. just 0x41. -/
theorem title_not_cut_at_null :
    Rom.title_of dataT = [0x41, 0x42] ∧ title_pre_null dataT = [0x41] ∧
    Rom.title_of dataT ≠ title_pre_null dataT := by
  refine ⟨?_, ?_, ?_⟩ <;> decide

/-- Claim C7, amended.  For every image, the parsed title equals the
title-field bytes present in the image (offsets 0x0134-0x0142) with
every null byte removed, in order: a null does not terminate the
title, non-null bytes after an interior null are kept, and all other
bytes pass through unmodified. -/
theorem title_filters_nulls (data : Nat → Option Nat) :
    Rom.title_of data
      = ((List.range' 0x0134 15).filterMap data).filter
          (fun b => decide (b ≠ 0x00)) :=
  filterMap_title_eq data (List.range' 0x0134 15)

/-- Claim C8.  A write anywhere in ROM address space 0x0000-0x7FFF
leaves the bus (cartridge included) exactly as it was — the two ROM
write arms only log (src/lib.rs:692) — so every subsequent read of
every address is unchanged; in particular this holds for a ROM-only
cartridge, and the write is not an error (MemBus::write returns
normally on every address). -/
theorem write_rom_noop (m : MemBus) (a v : Nat)
    (hc : m.rom.cart_type = CartType.ROMONLY) (ha : a ≤ 0x7FFF) :
    m.write a v = m ∧ ∀ x, (m.write a v).access x = m.access x := by
  have hw : m.write a v = m := by
    unfold MemBus.write
    split_ifs <;> first | rfl | omega
  exact ⟨hw, fun x => by rw [hw]⟩

/-- Claim C8, witness at a concrete ROM-only bus and address. -/
theorem write_rom_noop_witness :
    membus0.write 0x1234 0x07 = membus0 ∧
    (membus0.write 0x1234 0x07).access 0xC000 = membus0.access 0xC000 :=
  ⟨(write_rom_noop membus0 0x1234 0x07 rfl (by decide)).1,
   (write_rom_noop membus0 0x1234 0x07 rfl (by decide)).2 0xC000⟩

/-- Claim C9.  For every bus state (hence after any prior sequence of
operations) and every address in 0xFEA0-0xFEFF, a read returns 0xFF
and a write leaves the bus exactly as it was. -/
theorem unusable_reads_ff_writes_discarded (m : MemBus) (a : Nat)
    (h1 : 0xFEA0 ≤ a) (h2 : a ≤ 0xFEFF) :
    m.access a = 0xFF ∧ ∀ v, m.write a v = m := by
  constructor
  · unfold MemBus.access
    split_ifs <;> first | rfl | omega
  · intro v
    unfold MemBus.write
    split_ifs <;> first | rfl | omega

/-- Claim C9, witness at a concrete bus, address 0xFEA0 and byte 0x55. -/
theorem unusable_region_witness :
    membus0.access 0xFEA0 = 0xFF ∧ membus0.write 0xFEA0 0x55 = membus0 :=
  ⟨(unusable_reads_ff_writes_discarded membus0 0xFEA0 (by decide) (by decide)).1,
   (unusable_reads_ff_writes_discarded membus0 0xFEA0 (by decide) (by decide)).2 0x55⟩

/-- Claim C10.  Whenever the fetched opcode is one the engine has not
implemented, `exec` returns the machine state unchanged (registers,
SP, PC and bus identical, and no failure), so the next `exec` fetches
the same opcode again. -/
theorem exec_unimplemented_state_unchanged (cpu : Cpu)
    (h : implemented (cpu.membus.access cpu.pc) = false) :
    cpu.exec = some cpu := by
  unfold Cpu.exec
  split
  all_goals first
    | rfl
    | (rename_i heq; rw [heq] at h; exact absurd h (by decide))

/-- Claim C10, witness at the concrete state whose fetched opcode is
0x02. -/
theorem exec_unimplemented_state_unchanged_witness :
    implemented (cpu02.membus.access cpu02.pc) = false ∧
    cpu02.exec = some cpu02 :=
  ⟨by decide, exec_unimplemented_state_unchanged cpu02 (by decide)⟩

end RgbEmu
